import Mathlib

/-!
Verification development for the NissanScraper repository.

Each Python function relevant to the checked properties is shallowly embedded
as a Lean definition.  Browser/DOM interaction is modelled through explicit
environments: every query against the live page (find_element, get_attribute,
element.text, element.location, ...) becomes an input field whose `Option`
layer records whether the call raised (`none`) or returned a value (`some _`).
Clicks, scrolls and sleeps issued by the program are recorded as events so
ordering properties can be stated.
-/

namespace NissanScraper

/-! ## Shared string helpers (Python `in`, `' '.join(s.split())`) -/

/-- Python substring test restricted to character lists:
`needle in hay` holds when some contiguous slice of `hay` equals `needle`. -/
def listContains (needle hay : List Char) : Bool :=
  (List.range (hay.length + 1)).any fun i =>
    (hay.drop i).take needle.length == needle

/-- Python `needle in hay` for strings. -/
def strContains (hay needle : String) : Bool :=
  listContains needle.toList hay.toList

/-- Python `' '.join(s.split())`: collapse whitespace runs to single spaces.
(Char.isWhitespace stands in for Python's str.split() whitespace class.) -/
def normalize_spaces (s : String) : String :=
  String.intercalate " " ((s.split Char.isWhitespace).filter fun w => !(w == ""))

/-! ## C1 — ordered selector-strategy resolution

`NissanCarListScraper.scrape_car_list_from_link` (car_list.py lines 105-113)
iterates `name_selectors` in order; per selector, `find_element` may raise
(modelled `none`) or yield an element whose stripped text is `some t`; the
loop breaks at the first non-empty text. -/

/-- Whether one name-selector query yields a satisfying element:
found (no exception) with non-empty stripped text. -/
def satText (q : Option String) : Bool :=
  match q with
  | some t => !(t == "")
  | none => false

/-- The name-selector resolution loop of car_list.py lines 105-113. -/
def findFirstNonemptyText : List (Option String) → Option String
  | [] => none
  | q :: rest =>
    match q with
    | some t => if t == "" then findFirstNonemptyText rest else some t
    | none => findFirstNonemptyText rest

/-- Whether one trim-card selector is satisfiable for
`CarListProcessor.find_trim_cards_without_clicks` (car_list_processor.py
lines 116-153): the query returned a non-empty card list (`some cs`,
`cs ≠ []`) at least one card of which passes the validity check. -/
def satCards {α : Type} (valid : α → Bool) (q : Option (List α)) : Bool :=
  match q with
  | some cs => !cs.isEmpty && !(cs.filter valid).isEmpty
  | none => false

/-- `CarListProcessor.find_trim_cards_without_clicks` (car_list_processor.py
lines 116-153): per selector, `find_elements` may raise (`none`) or return a
card list; a non-empty list is filtered through
`is_valid_trim_card_without_clicks`, and the first non-empty validated list
is returned; otherwise the loop continues with the next selector and the
function finally returns `[]`. -/
def find_trim_cards_without_clicks {α : Type} (valid : α → Bool) :
    List (Option (List α)) → List α
  | [] => []
  | q :: rest =>
    match q with
    | some cards =>
      if !cards.isEmpty then
        let validated := cards.filter valid
        if !validated.isEmpty then validated
        else find_trim_cards_without_clicks valid rest
      else find_trim_cards_without_clicks valid rest
    | none => find_trim_cards_without_clicks valid rest

/-! ## Record extraction per product card (car_list.py lines 87-200)

Each card is processed against an environment of per-selector query results.
`none` models a raised `find_element`/`get_attribute`; `some t` a returned
(already stripped, as in the source) value. -/

/-- Name extraction with fallback (car_list.py lines 105-118): first selector
with non-empty stripped text, else the first line of the card text, else
`Car_{idx}`.  The fallback `card.text` read at line 116 is a live DOM read
OUTSIDE any inner try (only the per-card `except: continue` at lines 198-200
guards it), so `cardText = none` models it raising — which aborts the card:
the result `none` means the whole record is dropped.  (The source reads
`card.text` twice in the conditional expression; both reads are modelled as
one result.) -/
def extract_car_name (queries : List (Option String)) (cardText : Option String)
    (idx : Nat) : Option String :=
  match findFirstNonemptyText queries with
  | some t => some t
  | none =>
    match cardText with
    | none => none
    | some ct =>
      some (if ct == "" then "Car_" ++ toString idx
            else (ct.splitOn "\n").headD "")

/-- `re.search(r'(20\d\x7b2\x7d)', name)` (car_list.py line 121): leftmost
occurrence of the pattern 20 followed by two digits, or the empty string. -/
def find_year : List Char → String
  | [] => ""
  | c :: rest =>
    match c, rest with
    | '2', '0' :: d1 :: d2 :: _ =>
      if d1.isDigit && d2.isDigit then String.mk ['2', '0', d1, d2]
      else find_year rest
    | _, _ => find_year rest

/-- Price loop (car_list.py lines 139-151): first selector whose element is
found with non-empty stripped text; the text is whitespace-normalized; if no
selector satisfies, the price stays `""`. -/
def find_first_price : List (Option String) → String
  | [] => ""
  | q :: rest =>
    match q with
    | some t => if t == "" then find_first_price rest else normalize_spaces t
    | none => find_first_price rest

/-- Condition on an href (car_list.py line 167):
`href and ('nissan' in href or 'http' in href)`. -/
def link_ok (h : String) : Bool :=
  !(h == "") && (strContains h "nissan" || strContains h "http")

/-- Link loop (car_list.py lines 162-171).  One query is
`none` (find_element raised), `some none` (element found, href attribute is
Python `None`, treated as falsy) or `some (some h)`.  The first acceptable
href wins; otherwise the link stays `""`. -/
def find_first_link : List (Option (Option String)) → String
  | [] => ""
  | q :: rest =>
    match q with
    | some (some h) => if link_ok h then h else find_first_link rest
    | some none => find_first_link rest
    | none => find_first_link rest

/-- Trim loop (car_list.py lines 176-189): first selector with non-empty
stripped text shorter than 50 characters sets the optional `trim` field. -/
def find_first_trim : List (Option String) → Option String
  | [] => none
  | q :: rest =>
    match q with
    | some t =>
      if !(t == "") && t.length < 50 then some t else find_first_trim rest
    | none => find_first_trim rest

/-- Per-card query environment for car_list.py lines 87-200.
`cardText = none` models the unprotected `card.text` fallback read at line
116 raising (e.g. a stale element); every other fallible operation of the
loop sits inside an inner `try` of its own. -/
structure CardEnv where
  nameQueries : List (Option String)
  cardText : Option String
  priceQueries : List (Option String)
  linkQueries : List (Option (Option String))
  trimQueries : List (Option String)
deriving DecidableEq

/-- One iteration of the card loop (car_list.py lines 87-200): builds the
`car_info` record in the source's insertion order, or `none` when the card
is dropped by the per-card `except: continue` (lines 198-200) — reachable
exactly when every name selector misses AND the `card.text` fallback read
raises.  The `trim` key is only inserted when some trim selector succeeds. -/
def extract_car_info (idx : Nat) (card : CardEnv) :
    Option (List (String × String)) :=
  match extract_car_name card.nameQueries card.cardText idx with
  | none => none
  | some carName =>
    let base :=
      [("id", toString idx), ("name", carName),
       ("year", find_year carName.toList),
       ("price", find_first_price card.priceQueries),
       ("page_link", find_first_link card.linkQueries)]
    some (match find_first_trim card.trimQueries with
          | some t => base ++ [("trim", t)]
          | none => base)

/-- Whether the per-card `except: continue` drops the card: all name
selectors missed and the `card.text` fallback read raised. -/
def card_dropped (card : CardEnv) : Bool :=
  (findFirstNonemptyText card.nameQueries).isNone && card.cardText.isNone

/-- The card loop of `scrape_car_list_from_link` (cards enumerated from 1):
each card either appends its record to `self.car_data` or is dropped by the
per-card exception handler. -/
def scrape_car_list (cards : List CardEnv) : List (List (String × String)) :=
  (List.enumFrom 1 cards).filterMap fun p => extract_car_info p.1 p.2

/-! ## Configuration values and save-time cleaning
(build_configurator.py lines 1425-1455 and 1361-1384)

`clean_config_data` only ever distinguishes a value being Python `None`,
being `== ''`, being a dict, or being a list; members of nested dicts/lists
are themselves only compared against `None`/`''`.  Scalars therefore model
null, strings, and any other member value (numbers stand in for every value
that is neither `None` nor equal to `''`). -/

inductive Scalar where
  | snull : Scalar
  | sstr : String → Scalar
  | sint : Int → Scalar
deriving DecidableEq

inductive Value where
  | scalar : Scalar → Value
  | dict : List (String × Scalar) → Value
  | list : List Scalar → Value
deriving DecidableEq

/-- Python `v is None or v == ''` for a member value. -/
def scalarIsEmptyOrNull : Scalar → Bool
  | .snull => true
  | .sstr t => t == ""
  | .sint _ => false

/-- Python `value is None or value == ''` for a top-level value
(dicts and lists are neither `None` nor equal to `''`). -/
def valueIsEmptyOrNull : Value → Bool
  | .scalar s => scalarIsEmptyOrNull s
  | .dict _ => false
  | .list _ => false

/-- `BuildConfigurator._clean_dict` (build_configurator.py lines 1448-1451). -/
def clean_dict (d : List (String × Scalar)) : List (String × Scalar) :=
  d.filter fun kv => !(scalarIsEmptyOrNull kv.2)

/-- `BuildConfigurator._clean_list` (build_configurator.py lines 1453-1455). -/
def clean_list (l : List Scalar) : List Scalar :=
  l.filter fun v => !(scalarIsEmptyOrNull v)

/-- One iteration of the `clean_config_data` loop: empty/None values are
skipped; dict/list values are shallow-cleaned and dropped when nothing
survives; every other value is kept. -/
def cleanEntry (kv : String × Value) : Option (String × Value) :=
  if valueIsEmptyOrNull kv.2 then none
  else
    match kv.2 with
    | .dict d =>
      let c := clean_dict d
      if c.isEmpty then none else some (kv.1, .dict c)
    | .list l =>
      let c := clean_list l
      if c.isEmpty then none else some (kv.1, .list c)
    | v => some (kv.1, v)

/-- `BuildConfigurator.clean_config_data` (build_configurator.py lines
1425-1446): `None` for a falsy (empty) config, otherwise the entry-wise
cleaned dict in insertion order. -/
def clean_config_data (config : List (String × Value)) :
    Option (List (String × Value)) :=
  if config.isEmpty then none
  else some (config.filterMap cleanEntry)

/-- The payload written by `save_configurations` (build_configurator.py lines
1361-1373): each config is cleaned, then falsy results (`None` and empty
dicts) are filtered out. -/
def saved_payload (configs : List (List (String × Value))) :
    List (List (String × Value)) :=
  (configs.filterMap clean_config_data).filter fun c => !c.isEmpty

/-! ## C3 — run loop and persistence
(`BuildConfigurator.process_build_configurations`, build_configurator.py
lines 45-88) -/

/-- One trim entry of the loaded seed data plus the outcome of
`scrape_main_section_only` for it (`none` = the scrape returned `None`). -/
structure TrimEnv where
  page_link : Option String
  scraped : Option (List (String × Value))
deriving DecidableEq

/-- `build_link = trim.get('page_link'); if not build_link: ...` —
absent (`none`) and empty links are both falsy. -/
def linkPresent (t : TrimEnv) : Bool :=
  match t.page_link with
  | some l => !(l == "")
  | none => false

/-- Observable events of one run: a unit of work finishing (counted
successful or failed) and a durable write of the configurations file. -/
inductive RunEv where
  | unitFailed : Nat → RunEv
  | unitDone : Nat → RunEv
  | save : List (List (String × Value)) → RunEv
deriving DecidableEq

/-- The per-trim loop (build_configurator.py lines 58-81): accumulates
`self.configurations` and emits one unit event per trim.  No save happens
inside the loop. -/
def runUnits : Nat → List TrimEnv → List (List (String × Value)) × List RunEv
  | _, [] => ([], [])
  | idx, t :: rest =>
    if linkPresent t then
      match t.scraped with
      | some cfg =>
        let r := runUnits (idx + 1) rest
        (cfg :: r.1, .unitDone idx :: r.2)
      | none =>
        let r := runUnits (idx + 1) rest
        (r.1, .unitFailed idx :: r.2)
    else
      let r := runUnits (idx + 1) rest
      (r.1, .unitFailed idx :: r.2)

/-- `process_build_configurations` (build_configurator.py lines 45-88): runs
every unit, then — only after the loop — saves once when any configuration
was collected. -/
def process_build_configurations (trims : List TrimEnv) : List RunEv :=
  let r := runUnits 1 trims
  r.2 ++ (if r.1.isEmpty then [] else [.save (saved_payload r.1)])

/-- Whether a run event is a durable write. -/
def isSave : RunEv → Bool
  | .save _ => true
  | _ => false

/-- How one event changes the durable state: a save replaces it, anything
else leaves it. -/
def persistStep (acc : List (List (String × Value))) (e : RunEv) :
    List (List (String × Value)) :=
  match e with
  | .save p => p
  | _ => acc

/-- Durable state after a (possibly partial) event sequence: the payload of
the last completed save, or nothing when no save has happened. -/
def persistedConfigs (evs : List RunEv) : List (List (String × Value)) :=
  evs.foldl persistStep []

/-! ## C2 — main-section button processing and deduplication
(`BuildConfigurator._process_single_button`, build_configurator.py lines
1183-1223, with `generate_button_id` lines 1240-1268) -/

/-- `self.prohibited_contents` (build_configurator.py lines 27-31). -/
def prohibited_contents : List String :=
  ["change trim", "compare", "share", "save", "print", "email",
   "dealer", "inventory", "contact", "chat", "help", "support",
   "faq", "legal", "privacy", "terms", "cookie", "feedback"]

/-- `BuildConfigurator.is_prohibited_button` (build_configurator.py lines
1234-1239): substring check of every prohibited text against the
lower-cased button text. -/
def is_prohibited_button (button_text : String) : Bool :=
  if button_text == "" then false
  else prohibited_contents.any fun p => strContains button_text p

/-- Environment of one discovered button.  `buttonId = some k` models
`generate_button_id` producing the stable identifier `k` from the button's
attributes/text/classes; `none` models the `btn_{time.time()}` fallback (no
identifying parts, or an exception) — a fresh value on every call, which
therefore never matches the seen-set, neither on lookup nor later.
`feature`, `accessories` are the live-DOM heuristics
`is_feature_section_button` / `is_accessories_container_button`;
`clickSucceeds` is the outcome of `safe_click_with_esc`. -/
structure BtnEnv where
  buttonId : Option String
  text : String
  feature : Bool
  accessories : Bool
  clickSucceeds : Bool
deriving DecidableEq

/-- Observable outcome of one `_process_single_button` call. -/
inductive BtnEv where
  | skippedDup : BtnEv
  | skippedProhibited : BtnEv
  | skippedFeature : BtnEv
  | skippedAccessories : BtnEv
  | clickAttempt : Option String → Bool → BtnEv
deriving DecidableEq

/-- The `click_results` tallies of `click_main_section_buttons`. -/
structure ClickResults where
  skipped_already_processed : Nat
  skipped_prohibited : Nat
  skipped_feature_sections : Nat
  skipped_accessories : Nat
  clicked : Nat
  failed : Nat
deriving DecidableEq

def ClickResults.init : ClickResults := ⟨0, 0, 0, 0, 0, 0⟩

/-- `BuildConfigurator._process_single_button` (build_configurator.py lines
1183-1223): skip when the id is already in `self.processed_button_ids`, then
the prohibited/feature/accessories checks; otherwise click, and only a
SUCCESSFUL click adds the id to the seen-set. -/
def process_single_button (seen : List String) (r : ClickResults)
    (b : BtnEnv) : List String × ClickResults × BtnEv :=
  let idKnown :=
    match b.buttonId with
    | some k => seen.contains k
    | none => false
  if idKnown then
    (seen,
     { r with skipped_already_processed := r.skipped_already_processed + 1 },
     .skippedDup)
  else if is_prohibited_button b.text then
    (seen, { r with skipped_prohibited := r.skipped_prohibited + 1 },
     .skippedProhibited)
  else if b.feature then
    (seen,
     { r with skipped_feature_sections := r.skipped_feature_sections + 1 },
     .skippedFeature)
  else if b.accessories then
    (seen, { r with skipped_accessories := r.skipped_accessories + 1 },
     .skippedAccessories)
  else if b.clickSucceeds then
    ((match b.buttonId with | some k => k :: seen | none => seen),
     { r with clicked := r.clicked + 1 }, .clickAttempt b.buttonId true)
  else
    (seen, { r with failed := r.failed + 1 }, .clickAttempt b.buttonId false)

/-- The button loop of `click_main_section_buttons` (build_configurator.py
lines 1157-1158), threading the seen-set and tallies and recording one event
per button. -/
def click_buttons_go (seen : List String) (r : ClickResults) :
    List BtnEnv → ClickResults × List BtnEv
  | [] => (r, [])
  | b :: rest =>
    let s := process_single_button seen r b
    let f := click_buttons_go s.1 s.2.1 rest
    (f.1, s.2.2 :: f.2)

/-- One unit's button pass: `self.processed_button_ids` is cleared per trim
(build_configurator.py line 69), so the pass starts from an empty seen-set. -/
def click_main_section_buttons (bs : List BtnEnv) :
    ClickResults × List BtnEv :=
  click_buttons_go [] ClickResults.init bs

/-- Identity key of a click attempt event (any outcome). -/
def attemptKey : BtnEv → Option String
  | .clickAttempt (some k) _ => some k
  | _ => none

/-- Identity key of a successful click attempt event. -/
def succKey : BtnEv → Option String
  | .clickAttempt (some k) true => some k
  | _ => none

/-! ## C5 / C6 — click helpers as event traces

Events are the commands the program issues to the browser: a
scroll-into-view script, a sleep/settle delay, a native click, a JavaScript
click, an ESC key press.  Whether an issued command raises is part of the
environment. -/

inductive Ev where
  | scrollCmd : Ev
  | sleep : Ev
  | clickCmd : Ev
  | jsClickCmd : Ev
  | escCmd : Ev
deriving DecidableEq

/-- `NissanScraperBase._scroll_to_element` (base.py lines 66-75): issues the
scroll script; on success `_random_delay()` runs; any exception is swallowed
(`except: pass`), skipping the delay. -/
def scroll_to_element (scrollRaises : Bool) : List Ev :=
  Ev.scrollCmd :: (if scrollRaises then [] else [Ev.sleep])

/-- Environment of one `_safe_click` call: whether the scroll script, the
native click and the JavaScript click raise. -/
structure ClickEnv where
  scrollRaises : Bool
  nativeRaises : Bool
  jsRaises : Bool
deriving DecidableEq

/-- `NissanScraperBase._safe_click` (base.py lines 77-88): scroll (own
exceptions swallowed), then the native click; on exception the JavaScript
click; `True` when either click completed, `False` when both raised. -/
def safe_click (e : ClickEnv) : List Ev × Bool :=
  let tr := scroll_to_element e.scrollRaises
  if e.nativeRaises then
    if e.jsRaises then (tr ++ [Ev.clickCmd, Ev.jsClickCmd], false)
    else (tr ++ [Ev.clickCmd, Ev.jsClickCmd], true)
  else (tr ++ [Ev.clickCmd], true)

/-- `BuildConfigurator._safe_click_element` (build_configurator.py lines
335-345): native click, JavaScript fallback — and no scroll of its own. -/
def safe_click_element (nativeRaises jsRaises : Bool) : List Ev × Bool :=
  if nativeRaises then
    if jsRaises then ([Ev.clickCmd, Ev.jsClickCmd], false)
    else ([Ev.clickCmd, Ev.jsClickCmd], true)
  else ([Ev.clickCmd], true)

/-- Environment for `close_popup_with_esc` (build_configurator.py lines
1298-1317): the `body` lookup may raise; `is_popup_visible` is polled twice;
`closeButton` is the first displayed+enabled close button found by
`try_specific_close_button`, if any. -/
structure EscEnv where
  bodyRaises : Bool
  popupVisible1 : Bool
  popupVisible2 : Bool
  closeButton : Option ClickEnv
deriving DecidableEq

/-- `BuildConfigurator.try_specific_close_button` (build_configurator.py
lines 1339-1358): `_safe_click` on the first displayed+enabled close
button. -/
def try_specific_close_button (closeButton : Option ClickEnv) : List Ev :=
  match closeButton with
  | some ce => (safe_click ce).1
  | none => []

/-- `BuildConfigurator.close_popup_with_esc` (build_configurator.py lines
1298-1317): ESC, re-check, ESC again, and as a last resort the explicit
close button.  Exceptions are caught locally. -/
def close_popup_with_esc (e : EscEnv) : List Ev :=
  if e.bodyRaises then []
  else
    [Ev.escCmd, Ev.sleep] ++
      (if e.popupVisible1 then
        [Ev.sleep, Ev.escCmd, Ev.sleep] ++
          (if e.popupVisible2 then try_specific_close_button e.closeButton
           else [])
      else [])

/-- Environment for `safe_click_with_esc`. -/
structure EscClickEnv where
  scrollRaises : Bool
  displayed : Bool
  enabled : Bool
  nativeRaises : Bool
  jsRaises : Bool
  esc : EscEnv
deriving DecidableEq

/-- `BuildConfigurator.safe_click_with_esc` (build_configurator.py lines
1270-1296): scroll, clickability check, native click with JavaScript
fallback (a raising fallback escapes to the outer handler → `False`), settle
sleep, popup ESC handling, `True`. -/
def safe_click_with_esc (e : EscClickEnv) : List Ev × Bool :=
  let tr := scroll_to_element e.scrollRaises
  if !(e.displayed && e.enabled) then (tr, false)
  else if e.nativeRaises then
    if e.jsRaises then (tr ++ [Ev.clickCmd, Ev.jsClickCmd], false)
    else
      (tr ++ [Ev.clickCmd, Ev.jsClickCmd, Ev.sleep] ++
        close_popup_with_esc e.esc, true)
  else (tr ++ [Ev.clickCmd, Ev.sleep] ++ close_popup_with_esc e.esc, true)

/-- Environment for `SmartCardButtonClicker.click_button_safely`
(the `aria-expanded` reads and the screenshot do not issue click/scroll
commands and are modelled as silent). -/
structure CBEnv where
  scrollRaises : Bool
  displayed : Bool
  enabled : Bool
  nativeRaises : Bool
  jsRaises : Bool
deriving DecidableEq

/-- `SmartCardButtonClicker.click_button_safely` (build_expand_clickers.py
lines 360-403): scroll + `sleep(0.3)`, clickability check, native click with
JavaScript fallback (a raising fallback escapes to the outer handler →
`False`), animation sleep, `True`. -/
def click_button_safely (e : CBEnv) : List Ev × Bool :=
  let tr := scroll_to_element e.scrollRaises ++ [Ev.sleep]
  if !(e.displayed && e.enabled) then (tr, false)
  else if e.nativeRaises then
    if e.jsRaises then (tr ++ [Ev.clickCmd, Ev.jsClickCmd], false)
    else (tr ++ [Ev.clickCmd, Ev.jsClickCmd, Ev.sleep], true)
  else (tr ++ [Ev.clickCmd, Ev.sleep], true)

/-- Environment for `_click_first_button`. -/
structure FirstBtnEnv where
  displayed : Bool
  enabled : Bool
  scrollRaises : Bool
  nativeRaises : Bool
  jsRaises : Bool
  esc : EscEnv
deriving DecidableEq

/-- `BuildConfigurator._click_first_button` (build_configurator.py lines
300-333): clickability check, scroll + `sleep(0.5)`, `_safe_click_element`,
and on success the settle sleeps around `close_popup_with_esc`. -/
def click_first_button (e : FirstBtnEnv) : List Ev :=
  if !(e.displayed && e.enabled) then []
  else
    scroll_to_element e.scrollRaises ++ [Ev.sleep] ++
      (let c := safe_click_element e.nativeRaises e.jsRaises
       c.1 ++
         (if c.2 then
           [Ev.sleep] ++ close_popup_with_esc e.esc ++ [Ev.sleep]
         else []))

/-- One popup close button found by `DynamicBuildConfigurator.
handle_initial_popups` (build_configurator2.py lines 772-806). -/
structure PopupBtn where
  displayed : Bool
  clickRaises : Bool
deriving DecidableEq

/-- Inner button loop of one close-selector (build_configurator2.py lines
796-801): the first displayed button is clicked — no scroll — then a settle
sleep and `break`; a raising click escapes to the per-selector handler (the
selector is abandoned, also without the sleep).  A raising `is_displayed`
read is folded into the selector query producing a shorter list. -/
def popups_selector_clicks : List PopupBtn → List Ev
  | [] => []
  | b :: rest =>
    if b.displayed then
      if b.clickRaises then [Ev.clickCmd] else [Ev.clickCmd, Ev.sleep]
    else popups_selector_clicks rest

/-- Selector loop of `handle_initial_popups`: each close-selector query may
raise (`none`, e.g. the `button:contains(...)` pseudo-selector) and is then
skipped; otherwise its first displayed button is clicked. -/
def handle_initial_popups2_go : List (Option (List PopupBtn)) → List Ev
  | [] => []
  | none :: rest => handle_initial_popups2_go rest
  | some btns :: rest => popups_selector_clicks btns ++ handle_initial_popups2_go rest

/-- `DynamicBuildConfigurator.handle_initial_popups` (build_configurator2.py
lines 772-806): ESC on the body (a raising body lookup or key-press aborts
the whole handler via the outer `except`), a settle sleep, then the
close-selector loop.  No scroll command is issued anywhere. -/
def handle_initial_popups2 (bodyRaises : Bool)
    (qs : List (Option (List PopupBtn))) : List Ev :=
  if bodyRaises then []
  else [Ev.escCmd, Ev.sleep] ++ handle_initial_popups2_go qs

/-- The opening of `DynamicBuildConfigurator.scrape_single_configuration`
(build_configurator2.py lines 91-108): `driver.get` (no click/scroll event),
`time.sleep(3)`, then `handle_initial_popups`.  This is the first action of
each unit, and in the first unit of `process_vehicle_configurations` nothing
at all precedes it in the run — so the trace below is a genuine program
trace from the start, not a truncation at a function boundary. -/
def scrape_single_configuration_opening (bodyRaises : Bool)
    (qs : List (Option (List PopupBtn))) : List Ev :=
  Ev.sleep :: handle_initial_popups2 bodyRaises qs

/-- Whether an event is a click command (native or JavaScript). -/
def isClickEv (e : Ev) : Bool :=
  e == Ev.clickCmd || e == Ev.jsClickCmd

/-- `clicksScrolledFrom seen tr`: every click command in `tr` is preceded
(in `tr`, or before it when `seen` is set) by a scroll command. -/
def clicksScrolledFrom : Bool → List Ev → Bool
  | _, [] => true
  | seen, e :: rest =>
    if e == Ev.scrollCmd then clicksScrolledFrom true rest
    else if isClickEv e then seen && clicksScrolledFrom seen rest
    else clicksScrolledFrom seen rest

/-- Every click command in the trace has an earlier scroll command. -/
def clicksScrolled (tr : List Ev) : Bool :=
  clicksScrolledFrom false tr

/-! ## C7 — not-found handling
(`NissanScraperBase._handle_cookies_popup`, base.py lines 90-111, and
`BuildConfigurator.find_option_price_near_element`, build_configurator.py
lines 1064-1093) -/

/-- One cookie-selector query result: the found button's visibility and its
click environment.  A raising `find_element` (or `is_displayed`) is the
`none` case of the query. -/
structure CookieBtn where
  displayed : Bool
  click : ClickEnv
deriving DecidableEq

/-- `_handle_cookies_popup` (base.py lines 90-111): per selector,
`find_element` may raise (`except: continue`); a found, displayed button is
safe-clicked followed by `_random_delay()` and the loop breaks.  The Bool
reports whether any consent button was handled. -/
def handle_cookies_popup : List (Option CookieBtn) → List Ev × Bool
  | [] => ([], false)
  | none :: rest => handle_cookies_popup rest
  | some b :: rest =>
    if b.displayed then ((safe_click b.click).1 ++ [Ev.sleep], true)
    else handle_cookies_popup rest

/-- Character class of the regex fragment `[\$\£\€]`. -/
def isCurrency (c : Char) : Bool :=
  c == '$' || c == '£' || c == '€'

/-- Python regex `\s` (whitespace class used by the price pattern). -/
def isPyWhitespace (c : Char) : Bool :=
  c == ' ' || c == '\t' || c == '\n' || c == '\r' || c == '\x0b' || c == '\x0c'

/-- Character class of the regex fragment `[\d,]` (ASCII digits stand in for
the unicode digit class). -/
def isDigitOrComma (c : Char) : Bool :=
  c.isDigit || c == ','

/-- Greedy match of `[\$\£\€]\s*[\d,]+(?:\.\d\x7b2\x7d)?` anchored at the
start of `cs`.  No backtracking is needed: the three character classes are
pairwise disjoint where they meet, so maximal munch agrees with the regex. -/
def matchPriceAt (cs : List Char) : Option (List Char) :=
  match cs with
  | [] => none
  | c :: rest =>
    if isCurrency c then
      let ws := rest.takeWhile isPyWhitespace
      let rest2 := rest.drop ws.length
      let ds := rest2.takeWhile isDigitOrComma
      if ds.isEmpty then none
      else
        let rest3 := rest2.drop ds.length
        let tail :=
          match rest3 with
          | '.' :: d1 :: d2 :: _ =>
            if d1.isDigit && d2.isDigit then ['.', d1, d2] else []
          | _ => []
        some (c :: (ws ++ ds ++ tail))
    else none

/-- `re.search` with the price pattern: leftmost match, or `none`. -/
def searchPrice : List Char → Option String
  | [] => none
  | c :: rest =>
    match matchPriceAt (c :: rest) with
    | some m => some (String.mk m)
    | none => searchPrice rest

/-- Environment once the parent lookup succeeded: the exact-class price
element's stripped text (`none` = `find_element` raised), the parent's
stripped text and the element's own stripped text.  Any other raise inside
the outer `try` lands in the same `except` as a failed parent lookup. -/
structure PriceEnv where
  exactPrice : Option String
  parentText : String
  elementText : String
deriving DecidableEq

/-- `BuildConfigurator.find_option_price_near_element` (build_configurator.py
lines 1064-1093): parent lookup (raise → "Price not found"), exact price
class, regex over the parent text, regex over the element's own text,
otherwise the not-found sentinel.  Total: never raises. -/
def find_option_price_near_element (parentEnv : Option PriceEnv) : String :=
  match parentEnv with
  | none => "Price not found"
  | some e =>
    match e.exactPrice with
    | some t => t
    | none =>
      match searchPrice e.parentText.toList with
      | some m => m
      | none =>
        match searchPrice e.elementText.toList with
        | some m => m
        | none => "Price not found"

/-- Whether one cookie-selector strategy is satisfiable: the query returned
a displayed button. -/
def cookieMiss (q : Option CookieBtn) : Bool :=
  match q with
  | some b => !b.displayed
  | none => true

/-! ## C8 — icon-based state classification
(`SmartCardButtonClicker.get_button_icon_type`, build_expand_clickers.py
lines 331-358) -/

/-- `self.PLUS_ICON_PATH` (build_expand_clickers.py line 36). -/
def PLUS_ICON_PATH : String := "M17 11h-6v6H9v-6H3V9h6V3h2v6h6z"

/-- `self.MINUS_ICON_PATH` (build_expand_clickers.py line 39). -/
def MINUS_ICON_PATH : String := "M17.3 11H2.7V9h14.6z"

/-- Environment of one classification call: `svgHtml = none` models the
`find_element('svg')` (or the `innerHTML` read) raising; `ariaExpanded =
none` models the attribute being absent (Python `None`) or the
`get_attribute` call raising — the source treats both identically. -/
structure IconEnv where
  svgHtml : Option String
  ariaExpanded : Option String
deriving DecidableEq

/-- `get_button_icon_type` (build_expand_clickers.py lines 331-358): when an
SVG payload is obtained, only the two signatures are compared — an
unrecognized payload is "UNKNOWN" without consulting `aria-expanded`; the
attribute is inspected only when obtaining the payload raised. -/
def get_button_icon_type (e : IconEnv) : String :=
  match e.svgHtml with
  | some html =>
    if strContains html PLUS_ICON_PATH then "PLUS"
    else if strContains html MINUS_ICON_PATH then "MINUS"
    else "UNKNOWN"
  | none =>
    match e.ariaExpanded with
    | some s =>
      if s == "true" then "MINUS"
      else if s == "false" then "PLUS"
      else "UNKNOWN"
    | none => "UNKNOWN"

/-- Modelled from the spec claim C8 wording, for comparison with the code:
the icon sub-query yields a signal only when a signature matches; when it
yields no signal, the boolean-ish `aria-expanded` attribute is inspected if
present; otherwise Unknown. -/
def classify_spec_C8 (e : IconEnv) : String :=
  let iconSignal :=
    match e.svgHtml with
    | some html =>
      if strContains html PLUS_ICON_PATH then some "PLUS"
      else if strContains html MINUS_ICON_PATH then some "MINUS"
      else none
    | none => none
  match iconSignal with
  | some s => s
  | none =>
    match e.ariaExpanded with
    | some s =>
      if s == "true" then "MINUS"
      else if s == "false" then "PLUS"
      else "UNKNOWN"
    | none => "UNKNOWN"

/-! ## C9 — card-button processing
(`SmartCardButtonClicker.process_single_card_button`,
build_expand_clickers.py lines 296-329) -/

/-- Environment of one card button: its section name (as resolved by
`get_section_name`, which swallows its own exceptions), its icon
classification environment and its click environment. -/
structure CardButtonEnv where
  sectionName : String
  icon : IconEnv
  click : CBEnv
deriving DecidableEq

/-- The tallies threaded through `process_card_buttons`. -/
structure CardResults where
  buttons_with_plus_icon : Nat
  buttons_with_minus_icon : Nat
  buttons_clicked : Nat
  buttons_failed : Nat
  buttons_skipped : Nat
  sections_clicked : List String
  sections_skipped : List String
deriving DecidableEq

/-- `process_single_card_button` (build_expand_clickers.py lines 296-329):
PLUS → click via `click_button_safely` (clicked or failed); MINUS → skipped
and recorded; anything else → skipped.  All subcalls catch their own
exceptions, so the outer `except` (which would count a failure) is
unreachable in this model. -/
def process_single_card_button (b : CardButtonEnv) (r : CardResults) :
    CardResults × List Ev :=
  let iconType := get_button_icon_type b.icon
  if iconType == "PLUS" then
    let c := click_button_safely b.click
    if c.2 then
      ({ r with buttons_with_plus_icon := r.buttons_with_plus_icon + 1,
                buttons_clicked := r.buttons_clicked + 1,
                sections_clicked := r.sections_clicked ++ [b.sectionName] },
       c.1)
    else
      ({ r with buttons_with_plus_icon := r.buttons_with_plus_icon + 1,
                buttons_failed := r.buttons_failed + 1 }, c.1)
  else if iconType == "MINUS" then
    ({ r with buttons_with_minus_icon := r.buttons_with_minus_icon + 1,
              buttons_skipped := r.buttons_skipped + 1,
              sections_skipped := r.sections_skipped ++ [b.sectionName] },
     [])
  else
    ({ r with buttons_skipped := r.buttons_skipped + 1 }, [])

/-! ## C10 — duplicate-removal helpers
(`BuildConfigurator._remove_duplicate_elements`, build_configurator.py lines
166-180, and `SmartCardButtonClicker.remove_duplicate_elements`,
build_expand_clickers.py lines 506-530) -/

/-- A discovered DOM element as seen by the configurator helper:
`loc = none` models `element.location` raising. -/
structure DomElem where
  loc : Option (Int × Int)
deriving DecidableEq

/-- The f-string key `f"{x}_{y}"`. -/
def locKey (p : Int × Int) : String :=
  toString p.1 ++ "_" ++ toString p.2

/-- Loop of `_remove_duplicate_elements` with explicit seen-set: a readable
location's key gates membership; a raising location read appends the element
unconditionally (and records nothing as seen). -/
def remove_duplicate_elements_go (seen : List String) :
    List DomElem → List DomElem
  | [] => []
  | e :: rest =>
    match e.loc with
    | some p =>
      if seen.contains (locKey p) then remove_duplicate_elements_go seen rest
      else e :: remove_duplicate_elements_go (locKey p :: seen) rest
    | none => e :: remove_duplicate_elements_go seen rest

/-- `BuildConfigurator._remove_duplicate_elements` (build_configurator.py
lines 166-180). -/
def remove_duplicate_elements (es : List DomElem) : List DomElem :=
  remove_duplicate_elements_go [] es

/-- A discovered DOM element as seen by the clicker helper:
`elemIdRaw = none` models the `.id` read raising or yielding Python `None`
(both collapse to `""` via `element.id if element.id else ""`). -/
structure DomElem2 where
  elemIdRaw : Option String
  loc : Option (Int × Int)
deriving DecidableEq

/-- `element.id if element.id else ""`, with a raising read also `""`. -/
def effectiveElemId (e : DomElem2) : String :=
  match e.elemIdRaw with
  | some s => s
  | none => ""

/-- The clicker's key `f"{element_id}_{x}_{y}"`. -/
def elemKey2 (e : DomElem2) (p : Int × Int) : String :=
  effectiveElemId e ++ "_" ++ locKey p

/-- Loop of the clicker's `remove_duplicate_elements`: the key also carries
the remote element id; a raising location read appends unconditionally. -/
def remove_duplicate_elements2_go (seen : List String) :
    List DomElem2 → List DomElem2
  | [] => []
  | e :: rest =>
    match e.loc with
    | some p =>
      if seen.contains (elemKey2 e p) then
        remove_duplicate_elements2_go seen rest
      else e :: remove_duplicate_elements2_go (elemKey2 e p :: seen) rest
    | none => e :: remove_duplicate_elements2_go seen rest

/-- `SmartCardButtonClicker.remove_duplicate_elements`
(build_expand_clickers.py lines 506-530). -/
def remove_duplicate_elements2 (es : List DomElem2) : List DomElem2 :=
  remove_duplicate_elements2_go [] es

/-- The screen-position key of an element in the configurator helper, when
readable. -/
def keyOf (e : DomElem) : Option String :=
  e.loc.map locKey

/-- The full key of an element in the clicker helper, when readable. -/
def keyOf2 (e : DomElem2) : Option String :=
  e.loc.map fun p => elemKey2 e p

/-! ## Theorems -/

/-- Claim C1: for every target with an ordered list of candidate selector
strategies, if at least one strategy yields an element satisfying the
validity predicate, the resolution loop returns the element found by the
first such strategy in declared order and never one from a later strategy —
for the name-selector loop of `scrape_car_list_from_link` (validity:
non-empty stripped text) and for `find_trim_cards_without_clicks`
(validity: non-empty validated card list).  The satisfying strategy's
position splits the list as `pre ++ sat :: post`; the result is independent
of `post`. -/
theorem c1_first_satisfying_strategy_wins :
    (∀ (pre post : List (Option String)) (t : String),
      (∀ q ∈ pre, satText q = false) → (t == "") = false →
      findFirstNonemptyText (pre ++ some t :: post) = some t) ∧
    (∀ (α : Type) (valid : α → Bool)
      (pre post : List (Option (List α))) (cards : List α),
      (∀ q ∈ pre, satCards valid q = false) →
      cards.isEmpty = false → (cards.filter valid).isEmpty = false →
      find_trim_cards_without_clicks valid (pre ++ some cards :: post)
        = cards.filter valid) := by
  constructor
  · intro pre post t hpre ht
    induction pre with
    | nil => simp [findFirstNonemptyText, ht]
    | cons q rest ih =>
      have hq : satText q = false := hpre q (List.mem_cons_self q rest)
      have hrest : ∀ r ∈ rest, satText r = false := fun r hr =>
        hpre r (List.mem_cons_of_mem q hr)
      cases q with
      | none => simpa [findFirstNonemptyText] using ih hrest
      | some s =>
        have hs : (s == "") = true := by simpa [satText] using hq
        simpa [findFirstNonemptyText, hs] using ih hrest
  · intro α valid pre post cards hpre hc hv
    induction pre with
    | nil => simp [find_trim_cards_without_clicks, hc, hv]
    | cons q rest ih =>
      have hq : satCards valid q = false := hpre q (List.mem_cons_self q rest)
      have hrest : ∀ r ∈ rest, satCards valid r = false := fun r hr =>
        hpre r (List.mem_cons_of_mem q hr)
      cases q with
      | none => simpa [find_trim_cards_without_clicks] using ih hrest
      | some cs =>
        have hq2 : (!cs.isEmpty && !(cs.filter valid).isEmpty) = false := by
          simpa [satCards] using hq
        rcases Bool.and_eq_false_iff.mp hq2 with h1 | h2
        · have h1e : cs.isEmpty = true := by
            cases hcs : cs.isEmpty <;> simp [hcs] at h1 ⊢
          simpa [find_trim_cards_without_clicks, h1e] using ih hrest
        · have h2e : (cs.filter valid).isEmpty = true := by
            cases hcs : (cs.filter valid).isEmpty <;> simp [hcs] at h2 ⊢
          simpa [find_trim_cards_without_clicks, h2e] using ih hrest

/-- Witness for C1 at concrete inputs: the third name selector is the first
satisfying one and wins over a later satisfying one; the third trim-card
selector is the first with a non-empty validated list. -/
theorem c1_witness :
    findFirstNonemptyText [none, some "", some "Rogue", some "Altima"]
      = some "Rogue" ∧
    find_trim_cards_without_clicks (fun n => n % 2 == 0)
        [none, some [], some [1, 3], some [1, 2, 4], some [5, 6]]
      = [2, 4] := by
  constructor
  · exact c1_first_satisfying_strategy_wins.1 [none, some ""] [some "Altima"]
      "Rogue" (by decide) (by decide)
  · exact c1_first_satisfying_strategy_wins.2 Nat (fun n => n % 2 == 0)
      [none, some [], some [1, 3]] [some [5, 6]] [1, 2, 4]
      (by decide) (by decide) (by decide)

/-- Claim C5: the click helpers first attempt a native click; on any
exception they fall back to a JavaScript click on the same element; they
return `true` iff either path completes, `false` iff both raise, and (being
total functions of the exception environment) never propagate an exception.
Stated for `NissanScraperBase._safe_click` and
`BuildConfigurator._safe_click_element`. -/
theorem c5_click_fallback_semantics :
    ∀ (e : ClickEnv) (n j : Bool),
      ((safe_click e).2 = true ↔
        (e.nativeRaises = false ∨ e.jsRaises = false)) ∧
      ((safe_click e).2 = false ↔
        (e.nativeRaises = true ∧ e.jsRaises = true)) ∧
      (Ev.jsClickCmd ∈ (safe_click e).1 ↔ e.nativeRaises = true) ∧
      ((safe_click_element n j).2 = true ↔ (n = false ∨ j = false)) ∧
      ((safe_click_element n j).2 = false ↔ (n = true ∧ j = true)) ∧
      (Ev.jsClickCmd ∈ (safe_click_element n j).1 ↔ n = true) := by
  intro e n j
  rcases e with ⟨s, nr, jr⟩
  cases s <;> cases nr <;> cases jr <;> cases n <;> cases j <;>
    simp [safe_click, safe_click_element, scroll_to_element]

/-- Once a scroll command has been seen, the scroll-before-click check can
no longer fail. -/
theorem clicksScrolledFrom_true : ∀ l : List Ev, clicksScrolledFrom true l = true
  | [] => rfl
  | e :: rest => by
    simp only [clicksScrolledFrom]
    split
    · exact clicksScrolledFrom_true rest
    · split
      · simp [clicksScrolledFrom_true rest]
      · exact clicksScrolledFrom_true rest

/-- A trace that begins with the scroll-into-view command passes the
scroll-before-click check. -/
theorem clicksScrolled_after_scroll (s : Bool) (l : List Ev) :
    clicksScrolled (scroll_to_element s ++ l) = true := by
  simp [scroll_to_element, clicksScrolled, clicksScrolledFrom,
    clicksScrolledFrom_true]

/-- Counterexample to claim C6: the initial popup dismissal at the opening
of `DynamicBuildConfigurator.scrape_single_configuration` clicks a displayed
popup close button (build_configurator2.py line 799) with NO scroll-into-view
anywhere before it.  The trace holds from the very first action of the unit
— and, for the first unit of `process_vehicle_configurations`, from the
start of the whole run — so no caller context can supply a preceding
scroll: the trace contains a click command and no scroll command at all,
refuting the unconditional scroll-before-click ordering. -/
theorem c6_counterexample :
    scrape_single_configuration_opening false [some [⟨true, false⟩]]
      = [Ev.sleep, Ev.escCmd, Ev.sleep, Ev.clickCmd, Ev.sleep] ∧
    Ev.clickCmd ∈
      scrape_single_configuration_opening false [some [⟨true, false⟩]] ∧
    Ev.scrollCmd ∉
      scrape_single_configuration_opening false [some [⟨true, false⟩]] ∧
    clicksScrolled
      (scrape_single_configuration_opening false [some [⟨true, false⟩]])
      = false := by decide

/-- Claim C6 as amended: the dedicated safe-click helpers
(`_safe_click`, `safe_click_with_esc`, `click_button_safely`, and
`_click_first_button`, the one caller of `_safe_click_element`) do issue a
scroll-into-view before every click command they issue, in every
environment; the ordering is not a property of all click paths (see the
counterexample). -/
theorem c6_amended_helpers_scroll_before_click :
    ∀ (e1 : ClickEnv) (e2 : EscClickEnv) (e3 : CBEnv) (e4 : FirstBtnEnv),
      clicksScrolled (safe_click e1).1 = true ∧
      clicksScrolled (safe_click_with_esc e2).1 = true ∧
      clicksScrolled (click_button_safely e3).1 = true ∧
      clicksScrolled (click_first_button e4) = true := by
  intro e1 e2 e3 e4
  refine ⟨?_, ?_, ?_, ?_⟩
  · simp only [safe_click]
    split
    · split
      · exact clicksScrolled_after_scroll _ _
      · exact clicksScrolled_after_scroll _ _
    · exact clicksScrolled_after_scroll _ _
  · simp only [safe_click_with_esc]
    split
    · simpa using clicksScrolled_after_scroll e2.scrollRaises []
    · split
      · split
        · exact clicksScrolled_after_scroll _ _
        · rw [List.append_assoc]
          exact clicksScrolled_after_scroll _ _
      · rw [List.append_assoc]
        exact clicksScrolled_after_scroll _ _
  · simp only [click_button_safely]
    split
    · exact clicksScrolled_after_scroll _ _
    · split
      · split
        · rw [List.append_assoc]
          exact clicksScrolled_after_scroll _ _
        · rw [List.append_assoc]
          exact clicksScrolled_after_scroll _ _
      · rw [List.append_assoc]
        exact clicksScrolled_after_scroll _ _
  · simp only [click_first_button]
    split
    · rfl
    · rw [List.append_assoc]
      exact clicksScrolled_after_scroll _ _

/-- Claim C7: with no satisfiable strategy, resolution returns the
well-defined not-found result and never raises; a strategy whose query
throws is a miss and iteration proceeds.  For `_handle_cookies_popup`: when
every selector either raises or finds an undisplayed button, no click
happens and the popup is reported unhandled; a raising selector is simply
skipped.  For `find_option_price_near_element`: a raised parent lookup, or a
missed exact-class query with no pattern match in either text, yields the
"Price not found" sentinel; after a missed exact-class query the pattern
strategies are still consulted. -/
theorem c7_no_satisfiable_strategy_not_found :
    (∀ qs : List (Option CookieBtn),
      (∀ q ∈ qs, cookieMiss q = true) → handle_cookies_popup qs = ([], false)) ∧
    (∀ rest : List (Option CookieBtn),
      handle_cookies_popup (none :: rest) = handle_cookies_popup rest) ∧
    (find_option_price_near_element none = "Price not found") ∧
    (∀ e : PriceEnv, e.exactPrice = none →
      searchPrice e.parentText.toList = none →
      searchPrice e.elementText.toList = none →
      find_option_price_near_element (some e) = "Price not found") ∧
    (∀ (e : PriceEnv) (m : String), e.exactPrice = none →
      searchPrice e.parentText.toList = some m →
      find_option_price_near_element (some e) = m) := by
  refine ⟨?_, ?_, rfl, ?_, ?_⟩
  · intro qs hqs
    induction qs with
    | nil => rfl
    | cons q rest ih =>
      have hq : cookieMiss q = true := hqs q (List.mem_cons_self q rest)
      have hrest : ∀ r ∈ rest, cookieMiss r = true := fun r hr =>
        hqs r (List.mem_cons_of_mem q hr)
      cases q with
      | none => simpa [handle_cookies_popup] using ih hrest
      | some b =>
        have hb : b.displayed = false := by simpa [cookieMiss] using hq
        simpa [handle_cookies_popup, hb] using ih hrest
  · intro rest
    rfl
  · intro e h1 h2 h3
    simp only [String.toList] at h2 h3
    simp [find_option_price_near_element, h1, h2, h3]
  · intro e m h1 h2
    simp only [String.toList] at h2
    simp [find_option_price_near_element, h1, h2]

/-- Witness for C7 at concrete inputs: two raising selectors and one
undisplayed button yield the not-found outcome; a parent with no price
pattern yields the sentinel; a missed exact-class query still picks the
regex match out of the parent text. -/
theorem c7_witness :
    handle_cookies_popup [none, some ⟨false, ⟨false, false, false⟩⟩, none]
      = ([], false) ∧
    find_option_price_near_element
        (some ⟨none, "no price here", "still none"⟩)
      = "Price not found" ∧
    find_option_price_near_element
        (some ⟨none, "MSRP $1,234.56 total", "x"⟩)
      = "$1,234.56" := by
  refine ⟨?_, ?_, ?_⟩
  · exact c7_no_satisfiable_strategy_not_found.1
      [none, some ⟨false, ⟨false, false, false⟩⟩, none] (by decide)
  · exact c7_no_satisfiable_strategy_not_found.2.2.2.1
      ⟨none, "no price here", "still none"⟩ rfl (by decide) (by decide)
  · exact c7_no_satisfiable_strategy_not_found.2.2.2.2
      ⟨none, "MSRP $1,234.56 total", "x"⟩ "$1,234.56" rfl (by decide)

/-- Counterexample to claim C8: when the SVG payload is obtained but matches
neither signature, the code returns "UNKNOWN" without inspecting the present
`aria-expanded` attribute, while the claimed ordered fallback would classify
the button as expanded ("MINUS"). -/
theorem c8_counterexample :
    get_button_icon_type ⟨some "M0 0h1v1z", some "true"⟩ = "UNKNOWN" ∧
    classify_spec_C8 ⟨some "M0 0h1v1z", some "true"⟩ = "MINUS" ∧
    get_button_icon_type ⟨some "M0 0h1v1z", some "true"⟩
      ≠ classify_spec_C8 ⟨some "M0 0h1v1z", some "true"⟩ := by decide

/-- Claim C8 as amended: full characterization of
`get_button_icon_type`.  The signature comparison decides whenever an SVG
payload is obtained — an unrecognized payload is "UNKNOWN" without any
`aria-expanded` fallback; the attribute is inspected only when obtaining the
payload raised, mapping "true"/"false" to "MINUS"/"PLUS" and anything else
(including an absent attribute or a raising read) to "UNKNOWN". -/
theorem c8_amended_classification :
    (∀ (e : IconEnv) (html : String), e.svgHtml = some html →
      strContains html PLUS_ICON_PATH = true →
      get_button_icon_type e = "PLUS") ∧
    (∀ (e : IconEnv) (html : String), e.svgHtml = some html →
      strContains html PLUS_ICON_PATH = false →
      strContains html MINUS_ICON_PATH = true →
      get_button_icon_type e = "MINUS") ∧
    (∀ (e : IconEnv) (html : String), e.svgHtml = some html →
      strContains html PLUS_ICON_PATH = false →
      strContains html MINUS_ICON_PATH = false →
      get_button_icon_type e = "UNKNOWN") ∧
    (∀ e : IconEnv, e.svgHtml = none → e.ariaExpanded = some "true" →
      get_button_icon_type e = "MINUS") ∧
    (∀ e : IconEnv, e.svgHtml = none → e.ariaExpanded = some "false" →
      get_button_icon_type e = "PLUS") ∧
    (∀ (e : IconEnv) (s : String), e.svgHtml = none →
      e.ariaExpanded = some s → (s == "true") = false →
      (s == "false") = false → get_button_icon_type e = "UNKNOWN") ∧
    (∀ e : IconEnv, e.svgHtml = none → e.ariaExpanded = none →
      get_button_icon_type e = "UNKNOWN") := by
  refine ⟨?_, ?_, ?_, ?_, ?_, ?_, ?_⟩
  · intro e html h1 h2
    simp [get_button_icon_type, h1, h2]
  · intro e html h1 h2 h3
    simp [get_button_icon_type, h1, h2, h3]
  · intro e html h1 h2 h3
    simp [get_button_icon_type, h1, h2, h3]
  · intro e h1 h2
    simp [get_button_icon_type, h1, h2]
  · intro e h1 h2
    simp [get_button_icon_type, h1, h2]
  · intro e s h1 h2 h3 h4
    simp [get_button_icon_type, h1, h2, h3, h4]
  · intro e h1 h2
    simp [get_button_icon_type, h1, h2]

/-- Witness for C8 (amended) at concrete inputs: a payload containing the
plus signature, a recognized-neither payload, and the aria fallback after a
raised SVG lookup. -/
theorem c8_witness :
    get_button_icon_type ⟨some PLUS_ICON_PATH, none⟩ = "PLUS" ∧
    get_button_icon_type ⟨some "M9 9h2v2z", some "false"⟩ = "UNKNOWN" ∧
    get_button_icon_type ⟨none, some "false"⟩ = "PLUS" := by
  refine ⟨?_, ?_, ?_⟩
  · exact c8_amended_classification.1 ⟨some PLUS_ICON_PATH, none⟩
      PLUS_ICON_PATH rfl (by decide)
  · exact c8_amended_classification.2.2.1 ⟨some "M9 9h2v2z", some "false"⟩
      "M9 9h2v2z" rfl (by decide) (by decide)
  · exact c8_amended_classification.2.2.2.2.1 ⟨none, some "false"⟩ rfl rfl

/-- Claim C9: the card-button processor acts only on buttons classified as
collapsed: when the classification is not "PLUS" (i.e. "MINUS" or
"UNKNOWN"), no event at all is issued (in particular no click), the skipped
tally increments, and the clicked/failed tallies are unchanged; when it is
"PLUS" the button is never counted as skipped. -/
theorem c9_click_only_when_plus :
    ∀ (b : CardButtonEnv) (r : CardResults),
      (get_button_icon_type b.icon ≠ "PLUS" →
        (process_single_card_button b r).2 = [] ∧
        (process_single_card_button b r).1.buttons_skipped
          = r.buttons_skipped + 1 ∧
        (process_single_card_button b r).1.buttons_clicked
          = r.buttons_clicked ∧
        (process_single_card_button b r).1.buttons_failed
          = r.buttons_failed) ∧
      (get_button_icon_type b.icon = "PLUS" →
        (process_single_card_button b r).1.buttons_skipped
          = r.buttons_skipped) := by
  intro b r
  constructor
  · intro hne
    have hne2 : (get_button_icon_type b.icon == "PLUS") = false := by
      simpa using hne
    by_cases hm : (get_button_icon_type b.icon == "MINUS") = true
    · simp [process_single_card_button, hne2, hm]
    · simp only [Bool.not_eq_true] at hm
      simp [process_single_card_button, hne2, hm]
  · intro heq
    have heq2 : (get_button_icon_type b.icon == "PLUS") = true := by
      simpa using heq
    by_cases hc : (click_button_safely b.click).2 = true
    · simp [process_single_card_button, heq2, hc]
    · simp only [Bool.not_eq_true] at hc
      simp [process_single_card_button, heq2, hc]

/-- Witness for C9 at concrete inputs: an unknown icon (raised SVG lookup,
absent attribute) is skipped without a click; a minus icon likewise; a plus
icon is not counted as skipped. -/
theorem c9_witness :
    (process_single_card_button
        ⟨"Colors", ⟨none, none⟩, ⟨false, true, true, false, false⟩⟩
        ⟨0, 0, 0, 0, 0, [], []⟩).2 = [] ∧
    (process_single_card_button
        ⟨"Colors", ⟨none, none⟩, ⟨false, true, true, false, false⟩⟩
        ⟨0, 0, 0, 0, 0, [], []⟩).1.buttons_skipped = 1 ∧
    (process_single_card_button
        ⟨"Wheels", ⟨some MINUS_ICON_PATH, none⟩,
         ⟨false, true, true, false, false⟩⟩
        ⟨0, 0, 0, 0, 0, [], []⟩).2 = [] ∧
    (process_single_card_button
        ⟨"Trims", ⟨some PLUS_ICON_PATH, none⟩,
         ⟨false, true, true, false, false⟩⟩
        ⟨0, 0, 0, 0, 0, [], []⟩).1.buttons_skipped = 0 := by
  refine ⟨?_, ?_, ?_, ?_⟩
  · exact ((c9_click_only_when_plus
      ⟨"Colors", ⟨none, none⟩, ⟨false, true, true, false, false⟩⟩
      ⟨0, 0, 0, 0, 0, [], []⟩).1 (by decide)).1
  · exact ((c9_click_only_when_plus
      ⟨"Colors", ⟨none, none⟩, ⟨false, true, true, false, false⟩⟩
      ⟨0, 0, 0, 0, 0, [], []⟩).1 (by decide)).2.1
  · exact ((c9_click_only_when_plus
      ⟨"Wheels", ⟨some MINUS_ICON_PATH, none⟩,
       ⟨false, true, true, false, false⟩⟩
      ⟨0, 0, 0, 0, 0, [], []⟩).1 (by decide)).1
  · exact (c9_click_only_when_plus
      ⟨"Trims", ⟨some PLUS_ICON_PATH, none⟩,
       ⟨false, true, true, false, false⟩⟩
      ⟨0, 0, 0, 0, 0, [], []⟩).2 (by decide)

/-- Counterexample to claim C2: the identity key is added to the seen-set
only after a successful click, so when the click on the first discovery of a
key fails, a second discovery of the same key is processed (click-attempted)
again instead of being counted as a skipped duplicate. -/
theorem c2_counterexample :
    ((click_main_section_buttons
        [⟨some "k", "expand", false, false, false⟩,
         ⟨some "k", "expand", false, false, false⟩]).2).filterMap attemptKey
      = ["k", "k"] ∧
    (click_main_section_buttons
        [⟨some "k", "expand", false, false, false⟩,
         ⟨some "k", "expand", false, false, false⟩]).1.skipped_already_processed
      = 0 := by decide

/-- Each `_process_single_button` step either leaves the seen-set unchanged
and contributes no successful click key, or (exactly on a successful click
of a button with a stable, unseen id) pushes that id. -/
theorem process_single_button_cases (seen : List String) (r : ClickResults)
    (b : BtnEnv) :
    ((process_single_button seen r b).1 = seen ∧
      succKey (process_single_button seen r b).2.2 = none) ∨
    (∃ k, b.buttonId = some k ∧ seen.contains k = false ∧
      (process_single_button seen r b).1 = k :: seen ∧
      succKey (process_single_button seen r b).2.2 = some k) := by
  rcases hbid : b.buttonId with _ | k
  · left
    simp only [process_single_button, hbid]
    split_ifs <;> simp [succKey]
  · by_cases hm : k ∈ seen
    · left
      simp [process_single_button, hbid, hm, succKey]
    · by_cases hp : is_prohibited_button b.text = true
      · left; simp [process_single_button, hbid, hm, hp, succKey]
      · simp only [Bool.not_eq_true] at hp
        by_cases hf : b.feature = true
        · left; simp [process_single_button, hbid, hm, hp, hf, succKey]
        · simp only [Bool.not_eq_true] at hf
          by_cases ha : b.accessories = true
          · left; simp [process_single_button, hbid, hm, hp, hf, ha, succKey]
          · simp only [Bool.not_eq_true] at ha
            by_cases hc : b.clickSucceeds = true
            · right
              refine ⟨k, rfl, by simp [hm], ?_, ?_⟩
              · simp [process_single_button, hbid, hm, hp, hf, ha, hc]
              · simp [process_single_button, hbid, hm, hp, hf, ha, hc, succKey]
            · simp only [Bool.not_eq_true] at hc
              left
              simp [process_single_button, hbid, hm, hp, hf, ha, hc, succKey]

/-- Invariant of the button loop: the keys of successful clicks are pairwise
distinct and disjoint from the starting seen-set. -/
theorem click_buttons_go_succKeys (bs : List BtnEnv) :
    ∀ (seen : List String) (r : ClickResults),
      (((click_buttons_go seen r bs).2).filterMap succKey).Nodup ∧
      ∀ k ∈ ((click_buttons_go seen r bs).2).filterMap succKey,
        seen.contains k = false := by
  induction bs with
  | nil => intro seen r; simp [click_buttons_go]
  | cons b rest ih =>
    intro seen r
    have hred : click_buttons_go seen r (b :: rest)
        = ((click_buttons_go (process_single_button seen r b).1
              (process_single_button seen r b).2.1 rest).1,
           (process_single_button seen r b).2.2 ::
             (click_buttons_go (process_single_button seen r b).1
               (process_single_button seen r b).2.1 rest).2) := rfl
    rcases process_single_button_cases seen r b with ⟨h1, h2⟩ |
      ⟨k, hk, hcont, h1, h2⟩
    · rw [hred, h1]
      simp only [List.filterMap_cons, h2]
      exact ih seen _
    · rw [hred, h1]
      simp only [List.filterMap_cons, h2]
      have ihk := ih (k :: seen) ((process_single_button seen r b).2.1)
      constructor
      · refine List.nodup_cons.mpr ⟨?_, ihk.1⟩
        intro hmem
        have hx := ihk.2 k hmem
        simp [List.contains_cons] at hx
      · intro q hq
        rcases List.mem_cons.mp hq with hq1 | hq2
        · subst hq1; exact hcont
        · have hx := ihk.2 q hq2
          simp only [List.contains_cons, Bool.or_eq_false_iff] at hx
          exact hx.2

/-- Claim C2 as amended: within one unit, a button whose stable identity key
is already in the seen-set is skipped and counted as a skipped duplicate;
but the key is marked seen only AFTER a successful click (not before
proceeding), so at-most-once processing holds for successful clicks — the
keys of successful click attempts in one unit are pairwise distinct — while
a button whose click failed may be click-attempted again on a repeated
discovery of the same key (see the counterexample). -/
theorem c2_amended_at_most_once_successful :
    (∀ (seen : List String) (r : ClickResults) (b : BtnEnv) (k : String),
      b.buttonId = some k → seen.contains k = true →
      process_single_button seen r b
        = (seen,
           { r with skipped_already_processed :=
               r.skipped_already_processed + 1 },
           .skippedDup)) ∧
    (∀ (seen : List String) (r : ClickResults) (b : BtnEnv) (k : String),
      b.buttonId = some k → seen.contains k = false →
      is_prohibited_button b.text = false → b.feature = false →
      b.accessories = false → b.clickSucceeds = true →
      process_single_button seen r b
        = (k :: seen, { r with clicked := r.clicked + 1 },
           .clickAttempt (some k) true)) ∧
    (∀ bs : List BtnEnv,
      (((click_main_section_buttons bs).2).filterMap succKey).Nodup) := by
  refine ⟨?_, ?_, ?_⟩
  · intro seen r b k hb hk
    have hm : k ∈ seen := List.elem_iff.mp hk
    simp [process_single_button, hb, hm]
  · intro seen r b k hb hk hp hf ha hc
    have hm : k ∉ seen := by
      intro h
      simp [h] at hk
    simp [process_single_button, hb, hm, hp, hf, ha, hc]
  · intro bs
    exact (click_buttons_go_succKeys bs [] ClickResults.init).1

/-- Witness for C2 (amended) at concrete inputs: a seen key is skipped and
tallied; an unseen key whose click succeeds is pushed onto the seen-set
afterwards; a unit with a repeated key (first click successful) yields
duplicate-free successful-click keys. -/
theorem c2_witness :
    process_single_button ["k"] ClickResults.init
        ⟨some "k", "go", false, false, true⟩
      = (["k"],
         { ClickResults.init with skipped_already_processed := 1 },
         .skippedDup) ∧
    process_single_button [] ClickResults.init
        ⟨some "k", "go", false, false, true⟩
      = (["k"], { ClickResults.init with clicked := 1 },
         .clickAttempt (some "k") true) ∧
    (((click_main_section_buttons
        [⟨some "k", "go", false, false, true⟩,
         ⟨some "k", "go", false, false, true⟩]).2).filterMap succKey).Nodup := by
  refine ⟨?_, ?_, ?_⟩
  · exact c2_amended_at_most_once_successful.1 ["k"] ClickResults.init
      ⟨some "k", "go", false, false, true⟩ "k" rfl (by decide)
  · exact c2_amended_at_most_once_successful.2.1 [] ClickResults.init
      ⟨some "k", "go", false, false, true⟩ "k" rfl (by decide) (by decide)
      rfl rfl rfl
  · exact c2_amended_at_most_once_successful.2.2
      [⟨some "k", "go", false, false, true⟩,
       ⟨some "k", "go", false, false, true⟩]

/-- Folding the persistence step over save-free events keeps the state. -/
theorem foldl_persistStep_no_save (evs : List RunEv) :
    ∀ acc, (∀ e ∈ evs, isSave e = false) → evs.foldl persistStep acc = acc := by
  induction evs with
  | nil => intro acc h; rfl
  | cons e rest ih =>
    intro acc h
    have he : isSave e = false := h e (List.mem_cons_self e rest)
    have hrest : ∀ x ∈ rest, isSave x = false := fun x hx =>
      h x (List.mem_cons_of_mem e hx)
    have hstep : persistStep acc e = acc := by
      cases e <;> simp [isSave, persistStep] at he ⊢
    rw [List.foldl_cons, hstep]
    exact ih acc hrest

/-- A save-free event sequence persists nothing. -/
theorem persisted_no_save (evs : List RunEv)
    (h : ∀ e ∈ evs, isSave e = false) : persistedConfigs evs = [] :=
  foldl_persistStep_no_save evs [] h

/-- The unit loop of `process_build_configurations` emits no save event. -/
theorem runUnits_no_save (trims : List TrimEnv) :
    ∀ idx : Nat, ∀ e ∈ (runUnits idx trims).2, isSave e = false := by
  induction trims with
  | nil =>
    intro idx e he
    simp [runUnits] at he
  | cons t rest ih =>
    intro idx e he
    by_cases hl : linkPresent t = true
    · cases hs : t.scraped with
      | some cfg =>
        simp only [runUnits, hl, hs, if_true] at he
        rcases List.mem_cons.mp he with h1 | h2
        · subst h1; rfl
        · exact ih (idx + 1) e h2
      | none =>
        simp only [runUnits, hl, hs, if_true] at he
        rcases List.mem_cons.mp he with h1 | h2
        · subst h1; rfl
        · exact ih (idx + 1) e h2
    · simp only [Bool.not_eq_true] at hl
      simp only [runUnits, hl, Bool.false_eq_true, if_false] at he
      rcases List.mem_cons.mp he with h1 | h2
      · subst h1; rfl
      · exact ih (idx + 1) e h2

/-- Appending a final save persists exactly its payload. -/
theorem persistedConfigs_append_save (l : List RunEv)
    (p : List (List (String × Value))) :
    persistedConfigs (l ++ [RunEv.save p]) = p := by
  simp [persistedConfigs, List.foldl_append, persistStep]

/-- Counterexample to claim C3: a run of two units that both succeed
persists nothing while only unit 1 (or even unit 2) is complete — the only
save event happens after the whole loop — although unit 1 did produce a
non-empty cleaned record, so the claimed per-unit checkpoint does not
exist. -/
theorem c3_counterexample :
    (process_build_configurations
        [⟨some "L1", some [("car_name", Value.scalar (Scalar.sstr "A"))]⟩,
         ⟨some "L2", some [("model", Value.scalar (Scalar.sstr "B"))]⟩]).take 2
      = [RunEv.unitDone 1, RunEv.unitDone 2] ∧
    persistedConfigs ((process_build_configurations
        [⟨some "L1", some [("car_name", Value.scalar (Scalar.sstr "A"))]⟩,
         ⟨some "L2", some [("model", Value.scalar (Scalar.sstr "B"))]⟩]).take 1)
      = [] ∧
    persistedConfigs ((process_build_configurations
        [⟨some "L1", some [("car_name", Value.scalar (Scalar.sstr "A"))]⟩,
         ⟨some "L2", some [("model", Value.scalar (Scalar.sstr "B"))]⟩]).take 2)
      = [] ∧
    saved_payload [[("car_name", Value.scalar (Scalar.sstr "A"))]]
      = [[("car_name", Value.scalar (Scalar.sstr "A"))]] := by decide

/-- Claim C3 as amended: the accumulated result set is serialized exactly
once, after ALL units complete — every proper prefix of the run (in
particular the state after unit k completes, for any k before the end)
persists nothing, and the full run persists the cleaned records of all
successful units; an interruption mid-run therefore loses the whole run,
not just the current unit. -/
theorem c3_amended_save_only_at_end :
    ∀ trims : List TrimEnv,
      (∀ n, n < (process_build_configurations trims).length →
        persistedConfigs ((process_build_configurations trims).take n) = []) ∧
      persistedConfigs (process_build_configurations trims)
        = saved_payload (runUnits 1 trims).1 := by
  intro trims
  by_cases hc : (runUnits 1 trims).1.isEmpty = true
  · have hproc : process_build_configurations trims = (runUnits 1 trims).2 := by
      simp [process_build_configurations, hc]
    have hnil : (runUnits 1 trims).1 = [] := List.isEmpty_iff.mp hc
    constructor
    · intro n hn
      rw [hproc]
      exact persisted_no_save _ fun e he =>
        runUnits_no_save trims 1 e (List.mem_of_mem_take he)
    · rw [hproc, persisted_no_save _ (runUnits_no_save trims 1), hnil]
      rfl
  · simp only [Bool.not_eq_true] at hc
    have hproc : process_build_configurations trims
        = (runUnits 1 trims).2 ++
            [RunEv.save (saved_payload (runUnits 1 trims).1)] := by
      simp [process_build_configurations, hc]
    constructor
    · intro n hn
      rw [hproc] at hn ⊢
      have hle : n ≤ ((runUnits 1 trims).2).length := by
        rw [List.length_append] at hn
        simpa using Nat.lt_succ_iff.mp (by simpa using hn)
      rw [List.take_append_of_le_length hle]
      exact persisted_no_save _ fun e he =>
        runUnits_no_save trims 1 e (List.mem_of_mem_take he)
    · rw [hproc]
      exact persistedConfigs_append_save _ _

/-- Witness for C3 (amended) at a concrete input: a one-unit run whose
trace has length 2 (unit event + final save) persists nothing after the
unit event alone, and the full run persists the cleaned accumulated
records. -/
theorem c3_witness :
    persistedConfigs ((process_build_configurations
        [⟨some "L", some [("k", Value.scalar (Scalar.sint 1))]⟩]).take 1)
      = [] ∧
    persistedConfigs (process_build_configurations
        [⟨some "L", some [("k", Value.scalar (Scalar.sint 1))]⟩])
      = saved_payload
          (runUnits 1 [⟨some "L", some [("k", Value.scalar (Scalar.sint 1))]⟩]).1 :=
  ⟨(c3_amended_save_only_at_end
      [⟨some "L", some [("k", Value.scalar (Scalar.sint 1))]⟩]).1 1 (by decide),
   (c3_amended_save_only_at_end
      [⟨some "L", some [("k", Value.scalar (Scalar.sint 1))]⟩]).2⟩

/-- Counterexample to claim C4, in three parts.  (1) A record CAN be
dropped: when every name selector misses and the `card.text` fallback read
raises, the per-card `except: continue` drops the whole record — "a
partially-filled record is never dropped" is false.  (2) Save-time cleaning
(`clean_config_data`) removes the key of an empty-string field from the
persisted record — the "price" key is omitted from the key set.  (3)
Already at extraction time the optional "trim" field is omitted (not
recorded as an empty sentinel) when no trim selector succeeds, while the
"price" key does carry the sentinel. -/
theorem c4_counterexample :
    extract_car_info 1 ⟨[none], none, [none], [none], [none]⟩ = none ∧
    scrape_car_list [⟨[none], none, [none], [none], [none]⟩] = [] ∧
    clean_config_data
        [("car_name", Value.scalar (Scalar.sstr "X")),
         ("price", Value.scalar (Scalar.sstr ""))]
      = some [("car_name", Value.scalar (Scalar.sstr "X"))] ∧
    ((clean_config_data
        [("car_name", Value.scalar (Scalar.sstr "X")),
         ("price", Value.scalar (Scalar.sstr ""))]).getD []).lookup "price"
      = none ∧
    ((extract_car_info 1
        ⟨[some "Sentra"], some "Sentra", [none], [none], [none]⟩).getD []).lookup
        "trim"
      = none ∧
    ((extract_car_info 1
        ⟨[some "Sentra"], some "Sentra", [none], [none], [none]⟩).getD []).lookup
        "price"
      = some "" := by decide

/-- The price loop leaves the sentinel `""` when no selector satisfies. -/
theorem find_first_price_unsat (qs : List (Option String))
    (h : ∀ q ∈ qs, satText q = false) : find_first_price qs = "" := by
  induction qs with
  | nil => rfl
  | cons q rest ih =>
    have hq : satText q = false := h q (List.mem_cons_self q rest)
    have hrest : ∀ r ∈ rest, satText r = false := fun r hr =>
      h r (List.mem_cons_of_mem q hr)
    cases q with
    | none => simpa [find_first_price] using ih hrest
    | some t =>
      have ht : (t == "") = true := by simpa [satText] using hq
      simpa [find_first_price, ht] using ih hrest

/-- Everything surviving `cleanEntry` is neither null nor the empty
string. -/
theorem cleanEntry_not_empty (kv : String × Value) (k : String) (v : Value)
    (h : cleanEntry kv = some (k, v)) : valueIsEmptyOrNull v = false := by
  rcases kv with ⟨k0, v0⟩
  by_cases h1 : valueIsEmptyOrNull v0 = true
  · simp [cleanEntry, h1] at h
  · simp only [Bool.not_eq_true] at h1
    rcases v0 with s | d | l
    · simp [cleanEntry, valueIsEmptyOrNull] at h h1
      rcases h with ⟨hk, hv⟩
      rw [← hv.2]
      simpa [valueIsEmptyOrNull] using hk
    · by_cases h2 : (clean_dict d).isEmpty = true
      · simp [cleanEntry, valueIsEmptyOrNull, h2] at h
      · simp [cleanEntry, valueIsEmptyOrNull, h2] at h
        rcases h with ⟨hk, hv⟩
        rw [← hv]
        rfl
    · by_cases h2 : (clean_list l).isEmpty = true
      · simp [cleanEntry, valueIsEmptyOrNull, h2] at h
      · simp [cleanEntry, valueIsEmptyOrNull, h2] at h
        rcases h with ⟨hk, hv⟩
        rw [← hv]
        rfl

/-- `cleanEntry` keeps a non-null, non-empty scalar entry unchanged. -/
theorem cleanEntry_keeps_scalar (k : String) (s : Scalar)
    (h : scalarIsEmptyOrNull s = false) :
    cleanEntry (k, .scalar s) = some (k, .scalar s) := by
  simp [cleanEntry, valueIsEmptyOrNull, h]

/-- The card loop drops a record exactly when every name selector misses
and the `card.text` fallback read raises. -/
theorem extract_car_info_none_iff (idx : Nat) (card : CardEnv) :
    extract_car_info idx card = none ↔
      (findFirstNonemptyText card.nameQueries = none ∧
        card.cardText = none) := by
  cases h1 : findFirstNonemptyText card.nameQueries with
  | some t => simp [extract_car_info, extract_car_name, h1]
  | none =>
    cases h2 : card.cardText with
    | some ct => simp [extract_car_info, extract_car_name, h1, h2]
    | none => simp [extract_car_info, extract_car_name, h1, h2]

/-- Bool form of the drop condition. -/
theorem card_dropped_iff (card : CardEnv) :
    card_dropped card = true ↔
      (findFirstNonemptyText card.nameQueries = none ∧
        card.cardText = none) := by
  simp [card_dropped, Option.isNone_iff_eq_none]

/-- The enumerated card loop emits exactly one record per non-dropped
card, whatever the start index. -/
theorem scrape_go_length (cards : List CardEnv) :
    ∀ n : Nat,
      ((List.enumFrom n cards).filterMap
          fun p => extract_car_info p.1 p.2).length
        = (cards.filter fun c => !card_dropped c).length := by
  induction cards with
  | nil => intro n; rfl
  | cons c rest ih =>
    intro n
    by_cases hd : card_dropped c = true
    · have hnone : extract_car_info n c = none :=
        (extract_car_info_none_iff n c).mpr ((card_dropped_iff c).mp hd)
      simp [List.enumFrom, List.filterMap_cons, List.filter_cons, hnone, hd,
        ih (n + 1)]
    · simp only [Bool.not_eq_true] at hd
      rcases hsome : extract_car_info n c with _ | r
      · exact absurd
          ((card_dropped_iff c).mpr ((extract_car_info_none_iff n c).mp hsome))
          (by simp [hd])
      · simp [List.enumFrom, List.filterMap_cons, List.filter_cons, hsome, hd,
          ih (n + 1)]

/-- Claim C4 as amended: when a record IS emitted, a failed price
extraction is recorded as the empty-string sentinel under its declared key;
but the record itself can be dropped — the per-card handler drops it
exactly when every name selector misses AND the unprotected `card.text`
fallback read raises, and otherwise each card contributes exactly one
record; moreover, before persisting, the configurator's cleaning pass omits
every key whose top-level value is null or the empty string, keeps
non-empty scalar entries, and maps a record to `None` exactly when it was
entirely empty — so empty-sentinel fields do NOT survive into the persisted
key set (see the counterexample). -/
theorem c4_amended_sentinel_then_cleaned :
    (∀ (idx : Nat) (card : CardEnv) (rec : List (String × String)),
      extract_car_info idx card = some rec →
      (∀ q ∈ card.priceQueries, satText q = false) →
      ("price", "") ∈ rec) ∧
    (∀ (idx : Nat) (card : CardEnv),
      extract_car_info idx card = none ↔
        (findFirstNonemptyText card.nameQueries = none ∧
          card.cardText = none)) ∧
    (∀ cards : List CardEnv,
      (scrape_car_list cards).length
        = (cards.filter fun c => !card_dropped c).length) ∧
    (∀ config : List (String × Value),
      clean_config_data config = none ↔ config = []) ∧
    (∀ (config : List (String × Value)) (k : String) (v : Value),
      (k, v) ∈ (clean_config_data config).getD [] →
      valueIsEmptyOrNull v = false) ∧
    (∀ (config : List (String × Value)) (k : String) (s : Scalar),
      (k, .scalar s) ∈ config → scalarIsEmptyOrNull s = false →
      (k, .scalar s) ∈ (clean_config_data config).getD []) := by
  refine ⟨?_, ?_, ?_, ?_, ?_, ?_⟩
  · intro idx card rec hrec h
    have hp : find_first_price card.priceQueries = "" :=
      find_first_price_unsat card.priceQueries h
    cases hn : extract_car_name card.nameQueries card.cardText idx with
    | none => simp [extract_car_info, hn] at hrec
    | some carName =>
      cases ht : find_first_trim card.trimQueries with
      | some t =>
        simp only [extract_car_info, hn, ht, Option.some.injEq] at hrec
        rw [← hrec]
        simp [hp]
      | none =>
        simp only [extract_car_info, hn, ht, Option.some.injEq] at hrec
        rw [← hrec]
        simp [hp]
  · intro idx card
    exact extract_car_info_none_iff idx card
  · intro cards
    exact scrape_go_length cards 1
  · intro config
    cases config with
    | nil => simp [clean_config_data]
    | cons a l => simp [clean_config_data]
  · intro config k v hv
    cases config with
    | nil => simp [clean_config_data] at hv
    | cons a l =>
      simp only [clean_config_data, List.isEmpty_cons, Bool.false_eq_true,
        if_false, Option.getD_some] at hv
      rcases List.mem_filterMap.mp hv with ⟨kv, hkv, hce⟩
      exact cleanEntry_not_empty kv k v hce
  · intro config k s hmem hs
    cases config with
    | nil => simp at hmem
    | cons a l =>
      simp only [clean_config_data, List.isEmpty_cons, Bool.false_eq_true,
        if_false, Option.getD_some]
      exact List.mem_filterMap.mpr
        ⟨(k, .scalar s), hmem, cleanEntry_keeps_scalar k s hs⟩

/-- Witness for C4 (amended) at concrete inputs: a card whose price
selectors all miss and whose record is emitted carries the sentinel price
entry; a card with all name selectors missing and a raising text read is
dropped; a non-empty scalar survives cleaning; the empty record cleans to
`None`. -/
theorem c4_witness :
    ("price", "") ∈
      [("id", "2"), ("name", "Kicks"), ("year", ""), ("price", ""),
       ("page_link", "http://x")] ∧
    extract_car_info 1 ⟨[none], none, [], [], []⟩ = none ∧
    ("msrp", Value.scalar (Scalar.sstr "$20,000")) ∈
      (clean_config_data
        [("msrp", Value.scalar (Scalar.sstr "$20,000")),
         ("note", Value.scalar Scalar.snull)]).getD [] ∧
    clean_config_data ([] : List (String × Value)) = none := by
  refine ⟨?_, ?_, ?_, ?_⟩
  · exact c4_amended_sentinel_then_cleaned.1 2
      ⟨[some "Kicks"], some "Kicks", [none, some ""],
       [some (some "http://x")], []⟩
      [("id", "2"), ("name", "Kicks"), ("year", ""), ("price", ""),
       ("page_link", "http://x")]
      (by decide) (by decide)
  · exact (c4_amended_sentinel_then_cleaned.2.1 1
      ⟨[none], none, [], [], []⟩).mpr ⟨rfl, rfl⟩
  · exact c4_amended_sentinel_then_cleaned.2.2.2.2.2 _ "msrp"
      (Scalar.sstr "$20,000") (by decide) (by decide)
  · exact (c4_amended_sentinel_then_cleaned.2.2.2.1 []).mpr rfl

/-- Counterexample to claim C10: the clicker's duplicate-removal helper keys
on the remote element id as well as the position, so two elements at the
same screen position `1_2` with different ids are BOTH kept — the output is
not "exactly the first element bearing each distinct screen-position key";
the configurator's helper, keying on position alone, does drop the second. -/
theorem c10_counterexample :
    remove_duplicate_elements2
        [⟨some "a", some (1, 2)⟩, ⟨some "b", some (1, 2)⟩]
      = [⟨some "a", some (1, 2)⟩, ⟨some "b", some (1, 2)⟩] ∧
    (DomElem2.mk (some "a") (some (1, 2))).loc
      = (DomElem2.mk (some "b") (some (1, 2))).loc ∧
    remove_duplicate_elements [⟨some (1, 2)⟩, ⟨some (1, 2)⟩]
      = [⟨some (1, 2)⟩] := by decide

/-- The configurator's dedupe loop returns a subsequence of its input. -/
theorem remove_dup_go_sublist (es : List DomElem) :
    ∀ seen, List.Sublist (remove_duplicate_elements_go seen es) es := by
  induction es with
  | nil => intro seen; simp [remove_duplicate_elements_go]
  | cons e rest ih =>
    intro seen
    cases hl : e.loc with
    | some p =>
      by_cases hc : seen.contains (locKey p) = true
      · simp only [remove_duplicate_elements_go, hl, hc, if_true]
        exact List.Sublist.cons e (ih seen)
      · simp only [Bool.not_eq_true] at hc
        simp only [remove_duplicate_elements_go, hl, hc, Bool.false_eq_true,
          if_false]
        exact List.Sublist.cons₂ e (ih _)
    | none =>
      simp only [remove_duplicate_elements_go, hl]
      exact List.Sublist.cons₂ e (ih seen)

/-- Invariant of the configurator's dedupe loop: the position keys of the
kept, located elements are pairwise distinct and disjoint from the starting
seen-set. -/
theorem remove_dup_go_keys (es : List DomElem) :
    ∀ seen, ((remove_duplicate_elements_go seen es).filterMap keyOf).Nodup ∧
      ∀ k ∈ (remove_duplicate_elements_go seen es).filterMap keyOf,
        seen.contains k = false := by
  induction es with
  | nil => intro seen; simp [remove_duplicate_elements_go]
  | cons e rest ih =>
    intro seen
    cases hl : e.loc with
    | some p =>
      by_cases hc : seen.contains (locKey p) = true
      · simp only [remove_duplicate_elements_go, hl, hc, if_true]
        exact ih seen
      · simp only [Bool.not_eq_true] at hc
        simp only [remove_duplicate_elements_go, hl, hc, Bool.false_eq_true,
          if_false]
        have hkey : keyOf e = some (locKey p) := by simp [keyOf, hl]
        simp only [List.filterMap_cons, hkey]
        have ihk := ih (locKey p :: seen)
        constructor
        · refine List.nodup_cons.mpr ⟨?_, ihk.1⟩
          intro hmem
          have hx := ihk.2 _ hmem
          simp at hx
        · intro q hq
          rcases List.mem_cons.mp hq with h1 | h2
          · subst h1; exact hc
          · have hx := ihk.2 q h2
            simp only [List.contains_cons, Bool.or_eq_false_iff] at hx
            exact hx.2
    | none =>
      simp only [remove_duplicate_elements_go, hl]
      have hkey : keyOf e = none := by simp [keyOf, hl]
      simp only [List.filterMap_cons, hkey]
      exact ih seen

/-- The configurator's dedupe loop keeps every element whose location read
raised. -/
theorem remove_dup_go_keeps_unlocated (es : List DomElem) :
    ∀ seen, ∀ e ∈ es, e.loc = none →
      e ∈ remove_duplicate_elements_go seen es := by
  induction es with
  | nil => intro seen e he; simp at he
  | cons a rest ih =>
    intro seen e he hl
    rcases List.mem_cons.mp he with h1 | h2
    · subst h1
      simp only [remove_duplicate_elements_go, hl]
      exact List.mem_cons_self _ _
    · cases ha : a.loc with
      | some p =>
        by_cases hc : seen.contains (locKey p) = true
        · simp only [remove_duplicate_elements_go, ha, hc, if_true]
          exact ih seen e h2 hl
        · simp only [Bool.not_eq_true] at hc
          simp only [remove_duplicate_elements_go, ha, hc, Bool.false_eq_true,
            if_false]
          exact List.mem_cons_of_mem a (ih _ e h2 hl)
      | none =>
        simp only [remove_duplicate_elements_go, ha]
        exact List.mem_cons_of_mem a (ih seen e h2 hl)

/-- The clicker's dedupe loop returns a subsequence of its input. -/
theorem remove_dup2_go_sublist (es : List DomElem2) :
    ∀ seen, List.Sublist (remove_duplicate_elements2_go seen es) es := by
  induction es with
  | nil => intro seen; simp [remove_duplicate_elements2_go]
  | cons e rest ih =>
    intro seen
    cases hl : e.loc with
    | some p =>
      by_cases hc : seen.contains (elemKey2 e p) = true
      · simp only [remove_duplicate_elements2_go, hl, hc, if_true]
        exact List.Sublist.cons e (ih seen)
      · simp only [Bool.not_eq_true] at hc
        simp only [remove_duplicate_elements2_go, hl, hc, Bool.false_eq_true,
          if_false]
        exact List.Sublist.cons₂ e (ih _)
    | none =>
      simp only [remove_duplicate_elements2_go, hl]
      exact List.Sublist.cons₂ e (ih seen)

/-- Invariant of the clicker's dedupe loop: the (id, position) keys of the
kept, located elements are pairwise distinct and disjoint from the starting
seen-set. -/
theorem remove_dup2_go_keys (es : List DomElem2) :
    ∀ seen, ((remove_duplicate_elements2_go seen es).filterMap keyOf2).Nodup ∧
      ∀ k ∈ (remove_duplicate_elements2_go seen es).filterMap keyOf2,
        seen.contains k = false := by
  induction es with
  | nil => intro seen; simp [remove_duplicate_elements2_go]
  | cons e rest ih =>
    intro seen
    cases hl : e.loc with
    | some p =>
      by_cases hc : seen.contains (elemKey2 e p) = true
      · simp only [remove_duplicate_elements2_go, hl, hc, if_true]
        exact ih seen
      · simp only [Bool.not_eq_true] at hc
        simp only [remove_duplicate_elements2_go, hl, hc, Bool.false_eq_true,
          if_false]
        have hkey : keyOf2 e = some (elemKey2 e p) := by simp [keyOf2, hl]
        simp only [List.filterMap_cons, hkey]
        have ihk := ih (elemKey2 e p :: seen)
        constructor
        · refine List.nodup_cons.mpr ⟨?_, ihk.1⟩
          intro hmem
          have hx := ihk.2 _ hmem
          simp at hx
        · intro q hq
          rcases List.mem_cons.mp hq with h1 | h2
          · subst h1; exact hc
          · have hx := ihk.2 q h2
            simp only [List.contains_cons, Bool.or_eq_false_iff] at hx
            exact hx.2
    | none =>
      simp only [remove_duplicate_elements2_go, hl]
      have hkey : keyOf2 e = none := by simp [keyOf2, hl]
      simp only [List.filterMap_cons, hkey]
      exact ih seen

/-- The clicker's dedupe loop keeps every element whose location read
raised. -/
theorem remove_dup2_go_keeps_unlocated (es : List DomElem2) :
    ∀ seen, ∀ e ∈ es, e.loc = none →
      e ∈ remove_duplicate_elements2_go seen es := by
  induction es with
  | nil => intro seen e he; simp at he
  | cons a rest ih =>
    intro seen e he hl
    rcases List.mem_cons.mp he with h1 | h2
    · subst h1
      simp only [remove_duplicate_elements2_go, hl]
      exact List.mem_cons_self _ _
    · cases ha : a.loc with
      | some p =>
        by_cases hc : seen.contains (elemKey2 a p) = true
        · simp only [remove_duplicate_elements2_go, ha, hc, if_true]
          exact ih seen e h2 hl
        · simp only [Bool.not_eq_true] at hc
          simp only [remove_duplicate_elements2_go, ha, hc, Bool.false_eq_true,
            if_false]
          exact List.mem_cons_of_mem a (ih _ e h2 hl)
      | none =>
        simp only [remove_duplicate_elements2_go, ha]
        exact List.mem_cons_of_mem a (ih seen e h2 hl)

/-- The configurator's dedupe loop keeps the first element bearing each
position key: an element whose key is neither in the starting seen-set nor
borne by any earlier element of the list is in the output. -/
theorem remove_dup_go_first_kept (es : List DomElem) :
    ∀ (seen : List String) (i : Nat) (hi : i < es.length) (p : Int × Int),
      (es.get ⟨i, hi⟩).loc = some p →
      seen.contains (locKey p) = false →
      (∀ e2 ∈ es.take i, keyOf e2 ≠ some (locKey p)) →
      es.get ⟨i, hi⟩ ∈ remove_duplicate_elements_go seen es := by
  induction es with
  | nil => intro seen i hi; exact absurd hi (by simp)
  | cons a rest ih =>
    intro seen i hi p hp hc hpre
    cases i with
    | zero =>
      have hp2 : a.loc = some p := hp
      simp only [remove_duplicate_elements_go, hp2, hc, Bool.false_eq_true,
        if_false]
      exact List.mem_cons_self _ _
    | succ j =>
      have hj : j < rest.length := by simpa using hi
      rw [List.get_cons_succ] at hp ⊢
      have hka : keyOf a ≠ some (locKey p) := hpre a (by
        rw [List.take_succ_cons]
        exact List.mem_cons_self a _)
      have hpre2 : ∀ e2 ∈ rest.take j, keyOf e2 ≠ some (locKey p) :=
        fun e2 he2 => hpre e2 (by
          rw [List.take_succ_cons]
          exact List.mem_cons_of_mem a he2)
      cases ha : a.loc with
      | none =>
        simp only [remove_duplicate_elements_go, ha]
        exact List.mem_cons_of_mem a (ih seen j hj p hp hc hpre2)
      | some q =>
        by_cases hq : seen.contains (locKey q) = true
        · simp only [remove_duplicate_elements_go, ha, hq, if_true]
          exact ih seen j hj p hp hc hpre2
        · simp only [Bool.not_eq_true] at hq
          simp only [remove_duplicate_elements_go, ha, hq, Bool.false_eq_true,
            if_false]
          refine List.mem_cons_of_mem a (ih _ j hj p hp ?_ hpre2)
          have hne : locKey p ≠ locKey q := by
            intro h
            exact hka (by simp [keyOf, ha, h])
          simp only [List.contains_cons, Bool.or_eq_false_iff]
          exact ⟨beq_eq_false_iff_ne.mpr hne, hc⟩

/-- The clicker's dedupe loop keeps the first element bearing each
(id, position) key. -/
theorem remove_dup2_go_first_kept (es : List DomElem2) :
    ∀ (seen : List String) (i : Nat) (hi : i < es.length) (p : Int × Int),
      (es.get ⟨i, hi⟩).loc = some p →
      seen.contains (elemKey2 (es.get ⟨i, hi⟩) p) = false →
      (∀ e2 ∈ es.take i, keyOf2 e2 ≠ some (elemKey2 (es.get ⟨i, hi⟩) p)) →
      es.get ⟨i, hi⟩ ∈ remove_duplicate_elements2_go seen es := by
  induction es with
  | nil => intro seen i hi; exact absurd hi (by simp)
  | cons a rest ih =>
    intro seen i hi p hp hc hpre
    cases i with
    | zero =>
      have hp2 : a.loc = some p := hp
      have hc2 : seen.contains (elemKey2 a p) = false := hc
      simp only [remove_duplicate_elements2_go, hp2, hc2, Bool.false_eq_true,
        if_false]
      exact List.mem_cons_self _ _
    | succ j =>
      have hj : j < rest.length := by simpa using hi
      rw [List.get_cons_succ] at hp hc hpre ⊢
      have hka : keyOf2 a ≠ some (elemKey2 (rest.get ⟨j, hj⟩) p) := hpre a (by
        rw [List.take_succ_cons]
        exact List.mem_cons_self a _)
      have hpre2 : ∀ e2 ∈ rest.take j,
          keyOf2 e2 ≠ some (elemKey2 (rest.get ⟨j, hj⟩) p) :=
        fun e2 he2 => hpre e2 (by
          rw [List.take_succ_cons]
          exact List.mem_cons_of_mem a he2)
      cases ha : a.loc with
      | none =>
        simp only [remove_duplicate_elements2_go, ha]
        exact List.mem_cons_of_mem a (ih seen j hj p hp hc hpre2)
      | some q =>
        by_cases hq : seen.contains (elemKey2 a q) = true
        · simp only [remove_duplicate_elements2_go, ha, hq, if_true]
          exact ih seen j hj p hp hc hpre2
        · simp only [Bool.not_eq_true] at hq
          simp only [remove_duplicate_elements2_go, ha, hq, Bool.false_eq_true,
            if_false]
          refine List.mem_cons_of_mem a (ih _ j hj p hp ?_ hpre2)
          have hne : elemKey2 (rest.get ⟨j, hj⟩) p ≠ elemKey2 a q := by
            intro h
            apply hka
            rw [h]
            simp [keyOf2, ha]
          simp only [List.contains_cons, Bool.or_eq_false_iff]
          exact ⟨beq_eq_false_iff_ne.mpr hne, hc⟩

/-- Claim C10 as amended: both duplicate-removal helpers return
order-preserving subsequences of their input, keep the FIRST element
bearing each key (an element none of whose predecessors bears its key is in
the output) and drop later same-key elements (the output keys are pairwise
distinct), and unconditionally keep any element whose location cannot be
read — but the configurator's helper keys on the screen position `x_y`
alone, while the clicker's helper keys on the remote element id together
with the position, so its output is only duplicate-free up to the
(id, x, y) key, not the screen-position key (see the counterexample). -/
theorem c10_amended_dedupe :
    (∀ es : List DomElem, List.Sublist (remove_duplicate_elements es) es) ∧
    (∀ es : List DomElem,
      ((remove_duplicate_elements es).filterMap keyOf).Nodup) ∧
    (∀ (es : List DomElem) (e : DomElem), e ∈ es → e.loc = none →
      e ∈ remove_duplicate_elements es) ∧
    (∀ es : List DomElem2, List.Sublist (remove_duplicate_elements2 es) es) ∧
    (∀ es : List DomElem2,
      ((remove_duplicate_elements2 es).filterMap keyOf2).Nodup) ∧
    (∀ (es : List DomElem2) (e : DomElem2), e ∈ es → e.loc = none →
      e ∈ remove_duplicate_elements2 es) ∧
    (∀ (es : List DomElem) (i : Nat) (hi : i < es.length) (p : Int × Int),
      (es.get ⟨i, hi⟩).loc = some p →
      (∀ e2 ∈ es.take i, keyOf e2 ≠ some (locKey p)) →
      es.get ⟨i, hi⟩ ∈ remove_duplicate_elements es) ∧
    (∀ (es : List DomElem2) (i : Nat) (hi : i < es.length) (p : Int × Int),
      (es.get ⟨i, hi⟩).loc = some p →
      (∀ e2 ∈ es.take i, keyOf2 e2 ≠ some (elemKey2 (es.get ⟨i, hi⟩) p)) →
      es.get ⟨i, hi⟩ ∈ remove_duplicate_elements2 es) := by
  refine ⟨?_, ?_, ?_, ?_, ?_, ?_, ?_, ?_⟩
  · intro es; exact remove_dup_go_sublist es []
  · intro es; exact (remove_dup_go_keys es []).1
  · intro es e he hl; exact remove_dup_go_keeps_unlocated es [] e he hl
  · intro es; exact remove_dup2_go_sublist es []
  · intro es; exact (remove_dup2_go_keys es []).1
  · intro es e he hl; exact remove_dup2_go_keeps_unlocated es [] e he hl
  · intro es i hi p hp hpre
    exact remove_dup_go_first_kept es [] i hi p hp rfl hpre
  · intro es i hi p hp hpre
    exact remove_dup2_go_first_kept es [] i hi p hp rfl hpre

/-- Witness for C10 (amended) at concrete inputs: elements with unreadable
locations are kept by both helpers; the first element bearing a position
key is kept by the configurator's helper, and an element whose (id,
position) key no predecessor bears is kept by the clicker's helper. -/
theorem c10_witness :
    (DomElem.mk none) ∈
      remove_duplicate_elements [⟨some (0, 0)⟩, ⟨none⟩] ∧
    (DomElem2.mk none none) ∈
      remove_duplicate_elements2 [⟨some "a", some (0, 0)⟩, ⟨none, none⟩] ∧
    (DomElem.mk (some (1, 2))) ∈
      remove_duplicate_elements [⟨some (1, 2)⟩, ⟨some (1, 2)⟩] ∧
    (DomElem2.mk (some "b") (some (1, 2))) ∈
      remove_duplicate_elements2
        [⟨some "a", some (1, 2)⟩, ⟨some "b", some (1, 2)⟩] := by
  refine ⟨?_, ?_, ?_, ?_⟩
  · exact c10_amended_dedupe.2.2.1 [⟨some (0, 0)⟩, ⟨none⟩] ⟨none⟩
      (by decide) rfl
  · exact c10_amended_dedupe.2.2.2.2.2.1
      [⟨some "a", some (0, 0)⟩, ⟨none, none⟩] ⟨none, none⟩ (by decide) rfl
  · exact c10_amended_dedupe.2.2.2.2.2.2.1
      [⟨some (1, 2)⟩, ⟨some (1, 2)⟩] 0 (by decide) (1, 2) rfl (by decide)
  · exact c10_amended_dedupe.2.2.2.2.2.2.2
      [⟨some "a", some (1, 2)⟩, ⟨some "b", some (1, 2)⟩] 1 (by decide) (1, 2)
      rfl (by decide)

end NissanScraper
